import Mathlib

/-!
# Shallow embedding of the `smallsh` Unix shell (smallsh.c / smallsh.h)

This file embeds the process-execution and job-lifecycle core of the
`smallsh` shell into Lean 4 and proves properties about it.  Every
definition mirrors a piece of the C source:

* `ShellState`       — the global variables `foregroundOnly`,
  `lastExitStatus`, `bgProcesses`/`bgCount` (smallsh.h lines 14-17);
* `handle_SIGTSTP`   — the SIGTSTP handler (smallsh.c lines 22-30);
* `checkBackgroundProcesses` — the non-blocking reap loop (lines 48-63);
* `redirect` / `childRun` / `childSignalSetup` — the child half of
  `executeCommand` (lines 86-124);
* `parentAfterSpawn` / `executeCommandDispatch` — the parent half of
  `executeCommand` (lines 79-85, 125-140);
* `parseStep` / `parseTokens` — the `strtok` tokenizing loop of `main`
  (lines 177-197);
* `route`            — the built-in routing of `main` (lines 201-220).

Operating-system effects (fork, open, waitpid, chdir) are passed in as
explicit oracles/results so the control flow of the C code can be
reproduced exactly.
-/

namespace Smallsh

/-- A process identifier.  `waitpid`/`kill` targets; modelled as `Nat`. -/
abbrev Pid := Nat

/-- The wait-status of a terminated child as decoded by the C macros:
`WIFEXITED`/`WEXITSTATUS` give `exited code`, otherwise
`WTERMSIG` gives `signaled sig`. -/
inductive WStatus where
  | exited (code : Nat)
  | signaled (sig : Nat)
deriving DecidableEq, Repr

/-- The shell's process-wide mutable state: the globals
`foregroundOnly`, `lastExitStatus`, and the background table
`bgProcesses[50]` with `bgCount` (smallsh.h lines 14-17).
The array together with its count is modelled as the list of its
first `bgCount` cells; `bgCount` is the list's length. -/
structure ShellState where
  foregroundOnly : Bool
  lastExitStatus : Int
  bgProcesses : List Pid
deriving DecidableEq, Repr

/-- The globals' initializers: `foregroundOnly = 0`, `lastExitStatus = 0`,
`bgCount = 0` (smallsh.h lines 14-17). -/
def initialShellState : ShellState :=
  { foregroundOnly := false, lastExitStatus := 0, bgProcesses := [] }

/-- `handle_SIGTSTP` (smallsh.c lines 22-30): toggles `foregroundOnly`
and writes one of two fixed messages.  Returns the new state and the
message written. -/
def handle_SIGTSTP (st : ShellState) : ShellState × String :=
  if st.foregroundOnly = false then
    ({ st with foregroundOnly := true },
      "\nEntering foreground-only mode (& is now ignored)\n")
  else
    ({ st with foregroundOnly := false }, "\nExiting foreground-only mode\n")

/-! ## Tokenizing loop of `main` (lines 177-197)

`strtok` state is the list of tokens not yet consumed.  The loop body
matches the C exactly: `<` and `>` consume the following token as a
path (a missing follower stores NULL); an `&` token triggers a
lookahead `strtok(NULL, " \n")` whose result decides between setting
`background` and keeping the `&` as an ordinary argument — in the
latter case the token eaten by the lookahead is gone, and the loop
continues after it. -/

/-- The accumulator of the tokenizing loop: `args`, `background`,
`inputFile`, `outputFile` (smallsh.c lines 177-181). -/
structure ParseState where
  args : List String
  background : Bool
  inputFile : Option String
  outputFile : Option String
deriving DecidableEq, Repr

/-- The loop's initial accumulator (lines 179-181). -/
def initParseState : ParseState :=
  { args := [], background := false, inputFile := none, outputFile := none }

/-- One pass of the `while (token)` loop (lines 183-196), recursing on
the remaining `strtok` tokens. -/
def parseStep (st : ParseState) : List String → ParseState
  | [] => st
  | t :: rest =>
    if t = "<" then
      match rest with
      | [] => parseStep { st with inputFile := none } []
      | p :: rest2 => parseStep { st with inputFile := some p } rest2
    else if t = ">" then
      match rest with
      | [] => parseStep { st with outputFile := none } []
      | p :: rest2 => parseStep { st with outputFile := some p } rest2
    else if t = "&" then
      match rest with
      | [] => parseStep { st with background := true } []
      | _next :: rest2 => parseStep { st with args := st.args ++ [t] } rest2
    else
      parseStep { st with args := st.args ++ [t] } rest

/-- Tokenizing a whole line's token list from the initial accumulator. -/
def parseTokens (toks : List String) : ParseState :=
  parseStep initParseState toks

/-! ## Signal dispositions (child half of `executeCommand`, lines 109-118) -/

/-- A signal disposition: default, ignore, or a custom handler. -/
inductive SigDisp where
  | dfl
  | ign
  | handler
deriving DecidableEq, Repr

/-- The child-relevant signal dispositions (SIGTSTP and SIGINT). -/
structure SigState where
  tstp : SigDisp
  int : SigDisp
deriving DecidableEq, Repr

/-- The dispositions the shell installs at startup and which a forked
child inherits: SIGTSTP has the `handle_SIGTSTP` handler (lines 153-157),
SIGINT is ignored (lines 159-163). -/
def shellSigState : SigState :=
  { tstp := .handler, int := .ign }

/-- The child's signal setup (smallsh.c lines 109-118): SIGTSTP is set
to `SIG_IGN` unconditionally; SIGINT is set to `SIG_DFL` only when
`background` is false. -/
def childSignalSetup (background : Bool) (inherited : SigState) : SigState :=
  let s := { inherited with tstp := SigDisp.ign }
  if background then s else { s with int := SigDisp.dfl }

/-- The parent branch test of `executeCommand` (line 126):
the child runs in the foreground (the parent blocks on it) exactly when
NOT (`background && !foregroundOnly`). -/
def runsInForeground (background foregroundOnly : Bool) : Bool :=
  !(background && !foregroundOnly)

/-! ## Redirection (child half of `executeCommand`, lines 87-107)

The `open` system call is an oracle from path and open mode to an
optional file descriptor; the child's actions are recorded as a trace. -/

/-- The two ways the child opens a file: `O_RDONLY` for input (line 89)
and `O_WRONLY | O_CREAT | O_TRUNC` with permission mode for output
(line 100).  `0644` octal is 420 decimal. -/
inductive OpenMode where
  | rdonly
  | wrCreatTrunc (perm : Nat)
deriving DecidableEq, Repr

/-- One observable action of the child process. -/
inductive Action where
  | openCall (path : String) (m : OpenMode)
  | dup2 (oldFd newFd : Nat)
  | close (fd : Nat)
  | perrorExit (msg : String) (status : Nat)
deriving DecidableEq, Repr

/-- The redirection block of the child (lines 87-107).  The `openRes`
oracle gives the descriptor `open` returns (or `none` for -1).
Returns the action trace and whether the child survived to the
`execvp` call (a failed open does `perror` then `exit(1)`). -/
def redirect (openRes : String → OpenMode → Option Nat)
    (inputFile outputFile : Option String) : List Action × Bool :=
  let inPart : List Action × Bool :=
    match inputFile with
    | none => ([], true)
    | some f =>
      match openRes f .rdonly with
      | none => ([.openCall f .rdonly, .perrorExit "cannot open input file" 1], false)
      | some fd => ([.openCall f .rdonly, .dup2 fd 0, .close fd], true)
  if inPart.2 then
    let outPart : List Action × Bool :=
      match outputFile with
      | none => ([], true)
      | some f =>
        match openRes f (.wrCreatTrunc 420) with
        | none =>
            ([.openCall f (.wrCreatTrunc 420), .perrorExit "cannot open output file" 1], false)
        | some fd => ([.openCall f (.wrCreatTrunc 420), .dup2 fd 1, .close fd], true)
    (inPart.1 ++ outPart.1, outPart.2)
  else inPart

/-- How the child process ends up. -/
inductive ChildResult where
  | exited (status : Nat)
  | execed (argv : List String)
deriving DecidableEq, Repr

/-- The whole child branch of `executeCommand` (lines 86-124):
redirection, signal setup, then `execvp(args[0], args)`.  `execOk`
says whether `execvp` succeeds (the image is replaced, passing `args`
verbatim); on failure the child reports and exits 1 (lines 121-124). -/
def childRun (openRes : String → OpenMode → Option Nat)
    (inputFile outputFile : Option String) (execOk : Bool)
    (args : List String) : ChildResult :=
  if (redirect openRes inputFile outputFile).2 then
    if execOk then .execed args else .exited 1
  else .exited 1

/-! ## Parent half of `executeCommand` (lines 79-85, 125-140) -/

/-- The translation of a foreground child's wait-status into
`lastExitStatus` (lines 132-138): `WEXITSTATUS` on normal exit,
`WTERMSIG` on signal termination — a single untagged integer. -/
def recordStatus : WStatus → Int
  | .exited code => (code : Int)
  | .signaled sig => (sig : Int)

/-- The parent branch of `executeCommand` (lines 125-140).  Given the
spawned pid and (for the blocking case) the status `waitpid` reports,
returns the new shell state, the "background pid is N" report if any,
and whether the parent blocked on the child. -/
def parentAfterSpawn (st : ShellState) (background : Bool) (pid : Pid)
    (ws : WStatus) : ShellState × Option Pid × Bool :=
  if background && !st.foregroundOnly then
    ({ st with bgProcesses := st.bgProcesses ++ [pid] }, some pid, false)
  else
    ({ st with lastExitStatus := recordStatus ws }, none, true)

/-- How a call to `executeCommand` resolves from the shell's point of
view: either the whole shell exits (fork failure, lines 83-85), or the
shell continues with an updated state. -/
inductive ExecOutcome where
  | shellExit (status : Nat) (msg : String)
  | continues (st : ShellState) (bgReport : Option Pid) (blocked : Bool)
deriving DecidableEq, Repr

/-- `executeCommand` as seen by the shell process (lines 79-140):
`forkFails` models `fork()` returning -1, in which case the shell
itself does `perror` and `exit(1)`; otherwise the parent branch runs. -/
def executeCommandDispatch (forkFails : Bool) (st : ShellState)
    (background : Bool) (pid : Pid) (ws : WStatus) : ExecOutcome :=
  if forkFails then .shellExit 1 "fork() failed"
  else
    let (st', rep, blocked) := parentAfterSpawn st background pid ws
    .continues st' rep blocked

/-! ## Background reaping: `checkBackgroundProcesses` (lines 48-63)

The OS side of `waitpid(pid, &status, WNOHANG)` is a phase map: a
running child yields 0 (no report), an unreaped terminated child
(zombie) yields its pid and becomes reaped, an already-reaped child
yields -1.  Only a positive return produces a report (line 53). -/

/-- The OS-side phase of a child process. -/
inductive ChildPhase where
  | running
  | zombie (ws : WStatus)
  | reaped
deriving DecidableEq, Repr

/-- `waitpid(p, &status, WNOHANG)`: the optional reported status and
the updated OS state. -/
def waitpidNohang (os : Pid → ChildPhase) (p : Pid) :
    Option WStatus × (Pid → ChildPhase) :=
  match os p with
  | .running => (none, os)
  | .zombie ws => (some ws, fun q => if q = p then .reaped else os q)
  | .reaped => (none, os)

/-- `checkBackgroundProcesses` (lines 48-63): scans the table in index
order, reporting each pid whose non-blocking wait returns it.  The
table itself is NOT modified by the loop.  Returns the reports (pid
with decoded status) and the resulting OS state. -/
def checkBackgroundProcesses (os : Pid → ChildPhase) :
    List Pid → List (Pid × WStatus) × (Pid → ChildPhase)
  | [] => ([], os)
  | p :: rest =>
    let w := waitpidNohang os p
    let c := checkBackgroundProcesses w.2 rest
    match w.1 with
    | some ws => ((p, ws) :: c.1, c.2)
    | none => c

/-- The background table after a reap cycle, as the code leaves it:
`checkBackgroundProcesses` never writes `bgProcesses` or `bgCount`,
so the table is returned unchanged. -/
def tableAfterReap (table : List Pid) : List Pid := table

/-! ## Built-in routing in `main` (lines 201-220) -/

/-- The signal number of SIGTERM, sent by the `exit` built-in. -/
def SIGTERM : Nat := 15

/-- What the `status` built-in prints (line 217): always the fixed
format `exit value N`, whatever `lastExitStatus` holds. -/
def statusOutput (lastExitStatus : Int) : String :=
  "exit value " ++ toString lastExitStatus ++ "\n"

/-- The result of routing one parsed command line. -/
inductive RouteResult where
  | exitShell (kills : List (Pid × Nat)) (exitStatus : Nat)
  | builtinDone (st : ShellState) (cwd : String) (output : Option String)
  | external (st : ShellState)
deriving DecidableEq, Repr

/-- The `cd` built-in (lines 207-215).  `validDir` is the `chdir`
oracle (true = success), `home` is `getenv("HOME")`, `cwd` the current
working directory.  With a path argument a failed `chdir` is reported
via `perror("cd failed")`; with no argument `chdir(getenv("HOME"))`
has its return value ignored. -/
def cdBuiltin (st : ShellState) (args : List String)
    (validDir : String → Bool) (home : Option String) (cwd : String) :
    ShellState × String × Option String :=
  if args.length > 1 then
    let p := args.getD 1 ""
    if validDir p then (st, p, none)
    else (st, cwd, some "cd failed")
  else
    match home with
    | some h => if validDir h then (st, h, none) else (st, cwd, none)
    | none => (st, cwd, none)

/-- The routing block of `main` (lines 201-220): `exit` sends SIGTERM
to every tracked pid and exits 0; `cd` and `status` run locally and
continue; anything else goes to `executeCommand`. -/
def route (st : ShellState) (args : List String)
    (validDir : String → Bool) (home : Option String) (cwd : String) :
    RouteResult :=
  match args with
  | [] => .builtinDone st cwd none
  | a0 :: _ =>
    if a0 = "exit" then
      .exitShell (st.bgProcesses.map (fun p => (p, SIGTERM))) 0
    else if a0 = "cd" then
      let (st', cwd', msg) := cdBuiltin st args validDir home cwd
      .builtinDone st' cwd' msg
    else if a0 = "status" then
      .builtinDone st cwd (some (statusOutput st.lastExitStatus))
    else .external st

/-! ## Session-level state evolution

Every place in the source that touches `ShellState` (the three globals),
collected as one step function, to reason about a whole shell session. -/

/-- One shell-state-relevant event of a session: a SIGTSTP delivery, a
reap cycle, a completed `executeCommand` (with the parse-time
`background` flag, the pid `fork` returned and the status a blocking
wait would see), a `cd` command or a `status` command. -/
inductive ShellEvent where
  | sigtstp
  | reap
  | spawn (background : Bool) (pid : Pid) (ws : WStatus)
  | cd (args : List String) (vd : String → Bool) (home : Option String) (cwd : String)
  | statusCmd

/-- The effect of one event on `ShellState`, each case delegating to
the embedding of the source function that handles it.  A reap cycle
leaves the table as `tableAfterReap` does (i.e. unchanged); `status`
only prints. -/
def shellStep (st : ShellState) : ShellEvent → ShellState
  | .sigtstp => (handle_SIGTSTP st).1
  | .reap => { st with bgProcesses := tableAfterReap st.bgProcesses }
  | .spawn bg pid ws => (parentAfterSpawn st bg pid ws).1
  | .cd args vd home cwd => (cdBuiltin st args vd home cwd).1
  | .statusCmd => st

/-- Capacity of the background table: `pid_t bgProcesses[50]`
(smallsh.h line 16). -/
def BG_CAPACITY : Nat := 50

/-- The array cell index the append `bgProcesses[bgCount++] = spawnPid`
(line 129) writes: the current `bgCount`, i.e. the number of handles
tracked so far. -/
def trackWriteIndex (st : ShellState) : Nat := st.bgProcesses.length

/-- The append of line 129 stays inside the array exactly when the
write index is below the capacity. -/
def trackInBounds (st : ShellState) : Prop := trackWriteIndex st < BG_CAPACITY

instance (st : ShellState) : Decidable (trackInBounds st) := by
  unfold trackInBounds; infer_instance

/-- Checks that in an action trace every `dup2 fd _` is immediately
followed by `close fd` — the "original closed immediately after
duplication" discipline of lines 94-95 and 105-106. -/
def dupThenClosed : List Action → Bool
  | [] => true
  | .dup2 fd _ :: rest =>
    match rest with
    | .close fd2 :: rest2 => fd2 = fd && dupThenClosed rest2
    | _ => false
  | _ :: rest => dupThenClosed rest

/-! ## Helper lemmas -/

/-- `cd` never writes any of the three globals: every branch of the
built-in returns the incoming `ShellState`. -/
theorem cdBuiltin_state_eq (st : ShellState) (args : List String)
    (vd : String → Bool) (home : Option String) (cwd : String) :
    (cdBuiltin st args vd home cwd).1 = st := by
  unfold cdBuiltin
  split
  · dsimp only
    split <;> rfl
  · split <;> first
      | rfl
      | (split <;> rfl)

/-- The tokenizing loop, on a token list whose non-final tokens are
none of `<`, `>`, `&`, sets `background` exactly when the accumulator
already had it set or the last token is `&`. -/
theorem parseStep_background_of_clean :
    ∀ (toks : List String) (st : ParseState),
      (∀ t ∈ toks.dropLast, t ≠ "<" ∧ t ≠ ">" ∧ t ≠ "&") →
      (parseStep st toks).background
        = (st.background || (toks.getLast? == some "&")) := by
  intro toks
  induction toks with
  | nil => intro st _; simp [parseStep]
  | cons t rest ih =>
    intro st h
    cases rest with
    | nil =>
      by_cases h1 : t = "<"
      · subst h1; simp [parseStep]
      · by_cases h2 : t = ">"
        · subst h2; simp [parseStep]
        · by_cases h3 : t = "&"
          · subst h3; simp [parseStep]
          · simp [parseStep, h1, h2, h3]
    | cons r rs =>
      have ht : t ≠ "<" ∧ t ≠ ">" ∧ t ≠ "&" := by
        apply h
        simp
      obtain ⟨h1, h2, h3⟩ := ht
      have hstep : parseStep st (t :: r :: rs)
          = parseStep { st with args := st.args ++ [t] } (r :: rs) := by
        simp [parseStep, h1, h2, h3]
      rw [hstep, ih _ (fun u hu => h u (by simp [hu]))]
      simp

/-- A non-blocking wait for `q` never revives an already-reaped `p`. -/
theorem waitpidNohang_preserves_reaped (os : Pid → ChildPhase) (q p : Pid)
    (h : os p = ChildPhase.reaped) :
    (waitpidNohang os q).2 p = ChildPhase.reaped := by
  unfold waitpidNohang
  cases hq : os q with
  | running => simpa using h
  | zombie ws =>
    dsimp only
    split
    · rfl
    · exact h
  | reaped => simpa using h

/-- A non-blocking wait that reports a status for `q` marks `q` reaped. -/
theorem waitpidNohang_some_reaped (os : Pid → ChildPhase) (q : Pid) (ws : WStatus)
    (h : (waitpidNohang os q).1 = some ws) :
    (waitpidNohang os q).2 q = ChildPhase.reaped := by
  unfold waitpidNohang at h ⊢
  cases hq : os q with
  | running => rw [hq] at h; cases h
  | zombie ws' => simp
  | reaped => rw [hq] at h; cases h

/-- A non-blocking wait on an already-reaped child reports nothing
(`waitpid` returns -1, not a positive pid). -/
theorem waitpidNohang_reaped_none (os : Pid → ChildPhase) (q : Pid)
    (h : os q = ChildPhase.reaped) :
    (waitpidNohang os q).1 = none := by
  simp [waitpidNohang, h]

/-- A reap cycle never revives an already-reaped pid. -/
theorem checkBackgroundProcesses_preserves_reaped :
    ∀ (table : List Pid) (os : Pid → ChildPhase) (p : Pid),
      os p = ChildPhase.reaped →
      (checkBackgroundProcesses os table).2 p = ChildPhase.reaped := by
  intro table
  induction table with
  | nil => intro os p h; exact h
  | cons q rest ih =>
    intro os p h
    have h1 := waitpidNohang_preserves_reaped os q p h
    simp only [checkBackgroundProcesses]
    cases hr : (waitpidNohang os q).1 with
    | some ws => exact ih _ p h1
    | none => exact ih _ p h1

/-- Every pid a reap cycle reports is marked reaped in the OS state
the cycle leaves behind. -/
theorem checkBackgroundProcesses_reported_reaped :
    ∀ (table : List Pid) (os : Pid → ChildPhase) (p : Pid),
      p ∈ ((checkBackgroundProcesses os table).1.map Prod.fst) →
      (checkBackgroundProcesses os table).2 p = ChildPhase.reaped := by
  intro table
  induction table with
  | nil => intro os p h; simp [checkBackgroundProcesses] at h
  | cons q rest ih =>
    intro os p h
    simp only [checkBackgroundProcesses] at h ⊢
    cases hr : (waitpidNohang os q).1 with
    | some ws =>
      rw [hr] at h
      simp only [List.map_cons, List.mem_cons] at h
      rcases h with h | h
      · subst h
        exact checkBackgroundProcesses_preserves_reaped rest _ p
          (waitpidNohang_some_reaped os _ ws hr)
      · exact ih _ p h
    | none =>
      rw [hr] at h
      exact ih _ p h

/-- A pid already reaped when a cycle starts is never reported by it. -/
theorem checkBackgroundProcesses_reaped_not_reported :
    ∀ (table : List Pid) (os : Pid → ChildPhase) (p : Pid),
      os p = ChildPhase.reaped →
      p ∉ ((checkBackgroundProcesses os table).1.map Prod.fst) := by
  intro table
  induction table with
  | nil => intro os p h; simp [checkBackgroundProcesses]
  | cons q rest ih =>
    intro os p h
    have h1 := waitpidNohang_preserves_reaped os q p h
    simp only [checkBackgroundProcesses]
    cases hr : (waitpidNohang os q).1 with
    | some ws =>
      simp only [List.map_cons, List.mem_cons]
      rintro (hpq | hmem)
      · subst hpq
        rw [waitpidNohang_reaped_none os p h] at hr
        cases hr
      · exact ih _ p h1 hmem
    | none => exact ih _ p h1

/-- Redirection with no paths is a no-op. -/
theorem redirect_none_none (openRes : String → OpenMode → Option Nat) :
    redirect openRes none none = ([], true) := rfl

/-- Redirection when the input open fails: report and die, the output
phase is never reached. -/
theorem redirect_in_fail (openRes : String → OpenMode → Option Nat)
    (f : String) (outF : Option String) (h : openRes f OpenMode.rdonly = none) :
    redirect openRes (some f) outF
      = ([.openCall f .rdonly, .perrorExit "cannot open input file" 1], false) := by
  simp [redirect, h]

/-- Redirection when the input open succeeds: open, dup onto fd 0,
close, then the output phase. -/
theorem redirect_in_ok (openRes : String → OpenMode → Option Nat)
    (f : String) (fd : Nat) (outF : Option String)
    (h : openRes f OpenMode.rdonly = some fd) :
    redirect openRes (some f) outF
      = ([.openCall f .rdonly, .dup2 fd 0, .close fd] ++ (redirect openRes none outF).1,
          (redirect openRes none outF).2) := by
  cases outF <;> simp [redirect, h]

/-- The output phase when its open fails. -/
theorem redirect_out_fail (openRes : String → OpenMode → Option Nat)
    (g : String) (h : openRes g (OpenMode.wrCreatTrunc 420) = none) :
    redirect openRes none (some g)
      = ([.openCall g (.wrCreatTrunc 420), .perrorExit "cannot open output file" 1], false) := by
  simp [redirect, h]

/-- The output phase when its open succeeds: open, dup onto fd 1, close. -/
theorem redirect_out_ok (openRes : String → OpenMode → Option Nat)
    (g : String) (fd : Nat) (h : openRes g (OpenMode.wrCreatTrunc 420) = some fd) :
    redirect openRes none (some g)
      = ([.openCall g (.wrCreatTrunc 420), .dup2 fd 1, .close fd], true) := by
  simp [redirect, h]

/-! ## Claim theorems -/

/-- C1 (counterexample): the claim says SIGINT is restored to default
exactly when the child will actually run in the foreground, including
a `&` command forced foreground by foreground-only mode.  But with
`background = true` and `foregroundOnly = true` the child does run in
the foreground while its SIGINT disposition stays ignored. -/
theorem C1_counterexample :
    runsInForeground true true = true ∧
    (childSignalSetup true shellSigState).int ≠ SigDisp.dfl := by
  decide

/-- C1 (amended): in every spawned child SIGTSTP is set to ignored,
and SIGINT is restored to default exactly when the parse-time
`background` flag is false — foreground-only mode is not consulted, so
a `&` command forced to run in the foreground keeps SIGINT ignored. -/
theorem C1_child_signal_dispositions (bg : Bool) (inherited : SigState) :
    (childSignalSetup bg inherited).tstp = SigDisp.ign ∧
    ((childSignalSetup bg shellSigState).int = SigDisp.dfl ↔ bg = false) := by
  cases bg <;> simp [childSignalSetup, shellSigState]

/-- C3: while `foregroundOnly` is set, every dispatch of an external
command takes the blocking branch: the parent waits, records the
status into `lastExitStatus`, reports no background pid, leaves the
job table unchanged — whatever the `background` flag — and no event
other than a SIGTSTP delivery changes the `foregroundOnly` flag, so
the suppression persists for subsequent commands. -/
theorem C3_foreground_only_suppresses_background (st : ShellState)
    (h : st.foregroundOnly = true) (bg : Bool) (pid : Pid) (ws : WStatus) :
    (parentAfterSpawn st bg pid ws).2.2 = true ∧
    (parentAfterSpawn st bg pid ws).2.1 = none ∧
    (parentAfterSpawn st bg pid ws).1.bgProcesses = st.bgProcesses ∧
    (parentAfterSpawn st bg pid ws).1.lastExitStatus = recordStatus ws ∧
    (parentAfterSpawn st bg pid ws).1.foregroundOnly = true ∧
    ∀ e : ShellEvent, e ≠ ShellEvent.sigtstp →
      (shellStep st e).foregroundOnly = st.foregroundOnly := by
  refine ⟨by simp [parentAfterSpawn, h], by simp [parentAfterSpawn, h],
    by simp [parentAfterSpawn, h], by simp [parentAfterSpawn, h],
    by simp [parentAfterSpawn, h], ?_⟩
  intro e _
  cases e with
  | sigtstp => simp_all
  | reap => rfl
  | spawn bg' pid' ws' =>
      simp only [shellStep, parentAfterSpawn]
      split <;> rfl
  | cd args vd home cwd => simp [shellStep, cdBuiltin_state_eq]
  | statusCmd => rfl

/-- C3 witness at a concrete foreground-only state and command. -/
theorem C3_witness :
    (⟨true, 0, []⟩ : ShellState).foregroundOnly = true ∧
    ((parentAfterSpawn ⟨true, 0, []⟩ true 7 (WStatus.exited 0)).2.2 = true ∧
      (parentAfterSpawn ⟨true, 0, []⟩ true 7 (WStatus.exited 0)).2.1 = none ∧
      (parentAfterSpawn ⟨true, 0, []⟩ true 7 (WStatus.exited 0)).1.bgProcesses
        = (⟨true, 0, []⟩ : ShellState).bgProcesses ∧
      (parentAfterSpawn ⟨true, 0, []⟩ true 7 (WStatus.exited 0)).1.lastExitStatus
        = recordStatus (WStatus.exited 0) ∧
      (parentAfterSpawn ⟨true, 0, []⟩ true 7 (WStatus.exited 0)).1.foregroundOnly = true ∧
      ∀ e : ShellEvent, e ≠ ShellEvent.sigtstp →
        (shellStep ⟨true, 0, []⟩ e).foregroundOnly
          = (⟨true, 0, []⟩ : ShellState).foregroundOnly) :=
  ⟨rfl, C3_foreground_only_suppresses_background ⟨true, 0, []⟩ rfl true 7 (WStatus.exited 0)⟩

/-- C10 (counterexample): on the token list `a & &` the last token is
a standalone `&`, yet the background flag ends up false — the first
`&`'s lookahead consumed the second one. -/
theorem C10_counterexample :
    (["a", "&", "&"] : List String).getLast? = some "&" ∧
    (parseTokens ["a", "&", "&"]).background = false := by
  refine ⟨rfl, rfl⟩

/-- C10 (amended): on token lists whose non-final tokens avoid `<`,
`>` and `&`, the background flag is set exactly when the last token is
`&`; and whenever an `&` token is scanned with a token after it, the
`&` is kept as an ordinary argument while the following token is
silently dropped (the lookahead consumed it). -/
theorem C10_amended (toks : List String) (next : String) (rest : List String)
    (st : ParseState)
    (h : ∀ t ∈ toks.dropLast, t ≠ "<" ∧ t ≠ ">" ∧ t ≠ "&") :
    ((parseTokens toks).background = true ↔ toks.getLast? = some "&") ∧
    parseStep st ("&" :: next :: rest)
      = parseStep { st with args := st.args ++ ["&"] } rest := by
  constructor
  · rw [parseTokens, parseStep_background_of_clean toks initParseState h]
    simp [initParseState]
  · rfl

/-- C10 witness at the token list `ls &`. -/
theorem C10_amended_witness :
    (∀ t ∈ (["ls", "&"] : List String).dropLast, t ≠ "<" ∧ t ≠ ">" ∧ t ≠ "&") ∧
    (((parseTokens ["ls", "&"]).background = true
        ↔ (["ls", "&"] : List String).getLast? = some "&") ∧
      parseStep initParseState ("&" :: "x" :: [])
        = parseStep { initParseState with args := initParseState.args ++ ["&"] } []) :=
  ⟨by decide, C10_amended ["ls", "&"] "x" [] initParseState (by decide)⟩

/-- C4 (counterexample): a foreground child that exits normally with
code 2 and one terminated by signal 2 leave the very same untagged
`lastExitStatus`, and the `status` built-in prints the identical line
`exit value 2` for both — the tag is not preserved, a terminating
signal number is not distinguished from a normal exit value. -/
theorem C4_counterexample :
    recordStatus (WStatus.exited 2) = recordStatus (WStatus.signaled 2) ∧
    statusOutput (recordStatus (WStatus.signaled 2)) = "exit value 2\n" := by
  exact ⟨rfl, rfl⟩

/-- C4 (amended): the last foreground status is recorded as a single
untagged integer — the exit code on normal exit, the signal number on
signal termination — and the `status` built-in always prints it in the
fixed `exit value N` format whatever its origin; with no prior
foreground command the stored value is the initial 0. -/
theorem C4_untagged_status (st : ShellState) (c s : Nat)
    (vd : String → Bool) (home : Option String) (cwd : String) :
    recordStatus (WStatus.exited c) = (c : Int) ∧
    recordStatus (WStatus.signaled s) = (s : Int) ∧
    route st ["status"] vd home cwd
      = RouteResult.builtinDone st cwd (some (statusOutput st.lastExitStatus)) ∧
    route initialShellState ["status"] vd home cwd
      = RouteResult.builtinDone initialShellState cwd (some "exit value 0\n") := by
  exact ⟨rfl, rfl, rfl, rfl⟩

/-- C5: routing `exit` sends SIGTERM to every tracked handle of the
job table and exits the shell with status 0; no other first argument
makes `route` terminate the shell. -/
theorem C5_exit_builtin (st : ShellState) (rest : List String)
    (vd : String → Bool) (home : Option String) (cwd : String) :
    route st ("exit" :: rest) vd home cwd
      = RouteResult.exitShell (st.bgProcesses.map (fun p => (p, SIGTERM))) 0 ∧
    (∀ (a0 : String) (args' : List String), a0 ≠ "exit" →
      ∀ (k : List (Pid × Nat)) (n : Nat),
        route st (a0 :: args') vd home cwd ≠ RouteResult.exitShell k n) ∧
    (∀ (k : List (Pid × Nat)) (n : Nat),
      route st [] vd home cwd ≠ RouteResult.exitShell k n) := by
  refine ⟨rfl, ?_, by intro k n; simp [route]⟩
  intro a0 args' ha k n
  by_cases h1 : a0 = "cd" <;> by_cases h2 : a0 = "status" <;>
    simp [route, ha, h1, h2]

/-- C5 witness: `exit` with two outstanding background pids. -/
theorem C5_exit_builtin_witness :
    route ⟨false, 0, [7, 9]⟩ ["exit"] (fun _ => true) none "/"
      = RouteResult.exitShell (([7, 9] : List Pid).map (fun p => (p, SIGTERM))) 0 :=
  (C5_exit_builtin ⟨false, 0, [7, 9]⟩ [] (fun _ => true) none "/").1

/-- C8 (counterexample): `cd` with no argument whose `chdir(HOME)`
fails (here HOME = `/home/u` is not enterable) leaves the working
directory unchanged — a failure — yet reports nothing, against the
claim that every `cd` failure is reported. -/
theorem C8_counterexample :
    cdBuiltin initialShellState ["cd"] (fun _ => false) (some "/home/u") "/w"
      = (initialShellState, "/w", none) ∧ ("/w" : String) ≠ "/home/u" := by
  exact ⟨rfl, by decide⟩

/-- C8 (amended): `cd` changes to the given path, or to HOME with no
argument; a failed change to a given path is reported as `cd failed`
with the directory unchanged, while a failed no-argument HOME change
is silent; in every case the `ShellState` (status, mode flag, job
table) is returned unchanged and routing continues the loop. -/
theorem C8_amended (st : ShellState) (args : List String)
    (vd : String → Bool) (home : Option String) (cwd : String)
    (rest : List String) :
    (cdBuiltin st args vd home cwd).1 = st ∧
    (args.length > 1 → vd (args.getD 1 "") = false →
      (cdBuiltin st args vd home cwd).2.2 = some "cd failed" ∧
      (cdBuiltin st args vd home cwd).2.1 = cwd) ∧
    (args.length > 1 → vd (args.getD 1 "") = true →
      (cdBuiltin st args vd home cwd).2.1 = args.getD 1 "" ∧
      (cdBuiltin st args vd home cwd).2.2 = none) ∧
    (¬ args.length > 1 → (cdBuiltin st args vd home cwd).2.2 = none) ∧
    (∃ c m, route st ("cd" :: rest) vd home cwd = RouteResult.builtinDone st c m) := by
  refine ⟨cdBuiltin_state_eq st args vd home cwd, ?_, ?_, ?_, ?_⟩
  · intro hlen hvd
    simp only [cdBuiltin, if_pos hlen]
    rw [hvd]
    simp
  · intro hlen hvd
    simp only [cdBuiltin, if_pos hlen]
    rw [hvd]
    simp
  · intro hlen
    rcases home with _ | h
    · simp [cdBuiltin, hlen]
    · by_cases hv : vd h = true <;> simp [cdBuiltin, hlen, hv]
  · refine ⟨(cdBuiltin st ("cd" :: rest) vd home cwd).2.1,
      (cdBuiltin st ("cd" :: rest) vd home cwd).2.2, ?_⟩
    have hr : route st ("cd" :: rest) vd home cwd
        = RouteResult.builtinDone (cdBuiltin st ("cd" :: rest) vd home cwd).1
          (cdBuiltin st ("cd" :: rest) vd home cwd).2.1
          (cdBuiltin st ("cd" :: rest) vd home cwd).2.2 := rfl
    rw [hr, cdBuiltin_state_eq]

/-- C2 (counterexample): with pid 5 tracked and terminated (zombie),
the reap cycle reports it, yet the table the code leaves behind still
contains 5 — the handle is not removed after being reported. -/
theorem C2_counterexample :
    (5 : Pid) ∈ ((checkBackgroundProcesses
        (fun p => if p = 5 then ChildPhase.zombie (WStatus.exited 0) else ChildPhase.running)
        [5]).1.map Prod.fst) ∧
    (5 : Pid) ∈ tableAfterReap [5] := by
  constructor
  · simp [checkBackgroundProcesses, waitpidNohang]
  · simp [tableAfterReap]

/-- C2 (amended): a reap cycle never removes anything from the table
(the code leaves `bgProcesses`/`bgCount` untouched); the completion is
nevertheless reported at most once, because the cycle that reports a
pid leaves it reaped in the OS and a later cycle's non-blocking wait
on a reaped pid returns no status and prints nothing. -/
theorem C2_reported_once_never_removed (os : Pid → ChildPhase)
    (table : List Pid) (p : Pid)
    (h : p ∈ ((checkBackgroundProcesses os table).1.map Prod.fst)) :
    tableAfterReap table = table ∧
    p ∉ ((checkBackgroundProcesses
        (checkBackgroundProcesses os table).2 table).1.map Prod.fst) := by
  refine ⟨rfl, ?_⟩
  exact checkBackgroundProcesses_reaped_not_reported table _ p
    (checkBackgroundProcesses_reported_reaped table os p h)

/-- C2 witness: pid 5, reported by the first cycle, absent from the
second cycle's reports, still in the table. -/
theorem C2_reported_once_never_removed_witness :
    (5 : Pid) ∈ ((checkBackgroundProcesses
        (fun p => if p = 5 then ChildPhase.zombie (WStatus.signaled 9) else ChildPhase.running)
        [5]).1.map Prod.fst) ∧
    (tableAfterReap [5] = [5] ∧
      (5 : Pid) ∉ ((checkBackgroundProcesses
          (checkBackgroundProcesses
            (fun p => if p = 5 then ChildPhase.zombie (WStatus.signaled 9) else ChildPhase.running)
            [5]).2 [5]).1.map Prod.fst)) :=
  ⟨by simp [checkBackgroundProcesses, waitpidNohang],
    C2_reported_once_never_removed _ [5] 5
      (by simp [checkBackgroundProcesses, waitpidNohang])⟩

/-- C6: the child's redirection block opens an input path read-only
and an output path write-only with create/truncate and fixed mode 0644
(= 420); every duplicated descriptor is closed immediately after its
`dup2`; the input descriptor is rebound onto fd 0 and (when the input
phase survived) the output descriptor onto fd 1; absent paths produce
no actions at all; and an open failure leaves a `perror`-plus-`exit(1)`
in the trace, terminates the child with status 1, while the parent
dispatch still continues the shell. -/
theorem C6_redirection (openRes : String → OpenMode → Option Nat)
    (inF outF : Option String) :
    (∀ f, inF = some f →
      Action.openCall f OpenMode.rdonly ∈ (redirect openRes inF outF).1) ∧
    (∀ f, outF = some f → (redirect openRes inF none).2 = true →
      Action.openCall f (OpenMode.wrCreatTrunc 420) ∈ (redirect openRes inF outF).1) ∧
    dupThenClosed (redirect openRes inF outF).1 = true ∧
    (∀ f fd, inF = some f → openRes f OpenMode.rdonly = some fd →
      Action.dup2 fd 0 ∈ (redirect openRes inF outF).1 ∧
      Action.close fd ∈ (redirect openRes inF outF).1) ∧
    (∀ f fd, outF = some f → (redirect openRes inF none).2 = true →
      openRes f (OpenMode.wrCreatTrunc 420) = some fd →
      Action.dup2 fd 1 ∈ (redirect openRes inF outF).1 ∧
      Action.close fd ∈ (redirect openRes inF outF).1) ∧
    (inF = none → outF = none →
      (redirect openRes inF outF).1 = [] ∧ (redirect openRes inF outF).2 = true) ∧
    ((redirect openRes inF outF).2 = false →
      (∃ msg, Action.perrorExit msg 1 ∈ (redirect openRes inF outF).1) ∧
      ∀ execOk args, childRun openRes inF outF execOk args = ChildResult.exited 1) ∧
    (∀ st bg pid ws, ∃ st' rep bl,
      executeCommandDispatch false st bg pid ws = ExecOutcome.continues st' rep bl) := by
  refine ⟨?_, ?_, ?_, ?_, ?_, ?_, ?_, ?_⟩
  · rintro f rfl
    cases h1 : openRes f OpenMode.rdonly with
    | none => rw [redirect_in_fail openRes f outF h1]; simp
    | some fd => rw [redirect_in_ok openRes f fd outF h1]; simp
  · rintro f rfl hok
    cases inF with
    | none =>
      cases h2 : openRes f (OpenMode.wrCreatTrunc 420) with
      | none => rw [redirect_out_fail openRes f h2]; simp
      | some fd => rw [redirect_out_ok openRes f fd h2]; simp
    | some g =>
      cases h1 : openRes g OpenMode.rdonly with
      | none => rw [redirect_in_fail openRes g none h1] at hok; cases hok
      | some fd1 =>
        rw [redirect_in_ok openRes g fd1 (some f) h1]
        simp only [List.mem_append]
        right
        cases h2 : openRes f (OpenMode.wrCreatTrunc 420) with
        | none => rw [redirect_out_fail openRes f h2]; simp
        | some fd2 => rw [redirect_out_ok openRes f fd2 h2]; simp
  · cases inF with
    | none =>
      cases outF with
      | none => rfl
      | some g =>
        cases h2 : openRes g (OpenMode.wrCreatTrunc 420) with
        | none => rw [redirect_out_fail openRes g h2]; rfl
        | some fd => rw [redirect_out_ok openRes g fd h2]; simp [dupThenClosed]
    | some f =>
      cases h1 : openRes f OpenMode.rdonly with
      | none => rw [redirect_in_fail openRes f outF h1]; rfl
      | some fd =>
        rw [redirect_in_ok openRes f fd outF h1]
        cases outF with
        | none => simp [redirect_none_none, dupThenClosed]
        | some g =>
          cases h2 : openRes g (OpenMode.wrCreatTrunc 420) with
          | none => rw [redirect_out_fail openRes g h2]; simp [dupThenClosed]
          | some fd2 => rw [redirect_out_ok openRes g fd2 h2]; simp [dupThenClosed]
  · rintro f fd rfl hfd
    rw [redirect_in_ok openRes f fd outF hfd]
    constructor <;> simp
  · rintro f fd rfl hok hfd
    cases inF with
    | none =>
      rw [redirect_out_ok openRes f fd hfd]
      constructor <;> simp
    | some g =>
      cases h1 : openRes g OpenMode.rdonly with
      | none => rw [redirect_in_fail openRes g none h1] at hok; cases hok
      | some fd1 =>
        rw [redirect_in_ok openRes g fd1 (some f) h1, redirect_out_ok openRes f fd hfd]
        constructor <;> simp
  · rintro rfl rfl
    exact ⟨rfl, rfl⟩
  · intro hf
    constructor
    · cases inF with
      | none =>
        cases outF with
        | none => rw [redirect_none_none] at hf; cases hf
        | some g =>
          cases h2 : openRes g (OpenMode.wrCreatTrunc 420) with
          | none =>
            rw [redirect_out_fail openRes g h2]
            exact ⟨"cannot open output file", by simp⟩
          | some fd => rw [redirect_out_ok openRes g fd h2] at hf; cases hf
      | some f =>
        cases h1 : openRes f OpenMode.rdonly with
        | none =>
          rw [redirect_in_fail openRes f outF h1]
          exact ⟨"cannot open input file", by simp⟩
        | some fd =>
          rw [redirect_in_ok openRes f fd outF h1] at hf ⊢
          cases outF with
          | none => rw [redirect_none_none] at hf; cases hf
          | some g =>
            cases h2 : openRes g (OpenMode.wrCreatTrunc 420) with
            | none =>
              rw [redirect_out_fail openRes g h2]
              exact ⟨"cannot open output file", by simp⟩
            | some fd2 => rw [redirect_out_ok openRes g fd2 h2] at hf; cases hf
    · intro execOk args
      simp [childRun, hf]
  · intro st bg pid ws
    exact ⟨(parentAfterSpawn st bg pid ws).1, (parentAfterSpawn st bg pid ws).2.1,
      (parentAfterSpawn st bg pid ws).2.2, rfl⟩

/-- C6 witness: input file opens on fd 3, output fails. -/
theorem C6_redirection_witness :
    (∀ f, (some "in" : Option String) = some f →
      Action.openCall f OpenMode.rdonly
        ∈ (redirect (fun p m => if p = "in" ∧ m = OpenMode.rdonly then some 3 else none)
            (some "in") (some "out")).1) ∧
    ((redirect (fun p m => if p = "in" ∧ m = OpenMode.rdonly then some 3 else none)
        (some "in") (some "out")).2 = false →
      (∃ msg, Action.perrorExit msg 1
        ∈ (redirect (fun p m => if p = "in" ∧ m = OpenMode.rdonly then some 3 else none)
            (some "in") (some "out")).1)) := by
  have h := C6_redirection
    (fun p m => if p = "in" ∧ m = OpenMode.rdonly then some 3 else none)
    (some "in") (some "out")
  exact ⟨h.1, fun hf => (h.2.2.2.2.2.2.1 hf).1⟩

/-- C7: a failed `fork` makes the shell itself report and exit with
the non-zero status 1; a failed `execvp` (after redirection succeeded)
makes only the child exit with status 1, and with `fork` succeeding
the shell never terminates — the dispatch continues whatever the
child did. -/
theorem C7_fork_fatal_exec_child_only (st : ShellState) (bg : Bool)
    (pid : Pid) (ws : WStatus) (openRes : String → OpenMode → Option Nat)
    (inF outF : Option String) (args : List String)
    (hre : (redirect openRes inF outF).2 = true) :
    executeCommandDispatch true st bg pid ws = ExecOutcome.shellExit 1 "fork() failed" ∧
    childRun openRes inF outF false args = ChildResult.exited 1 ∧
    ∀ (n : Nat) (m : String),
      executeCommandDispatch false st bg pid ws ≠ ExecOutcome.shellExit n m := by
  refine ⟨rfl, ?_, ?_⟩
  · simp [childRun, hre]
  · intro n m
    have hr : executeCommandDispatch false st bg pid ws
        = ExecOutcome.continues (parentAfterSpawn st bg pid ws).1
          (parentAfterSpawn st bg pid ws).2.1 (parentAfterSpawn st bg pid ws).2.2 := rfl
    rw [hr]
    simp

/-- C7 witness: no redirection (the trivially succeeding case). -/
theorem C7_fork_fatal_exec_child_only_witness :
    executeCommandDispatch true initialShellState false 7 (WStatus.exited 0)
      = ExecOutcome.shellExit 1 "fork() failed" ∧
    childRun (fun _ _ => none) none none false ["badcmd"] = ChildResult.exited 1 ∧
    ∀ (n : Nat) (m : String),
      executeCommandDispatch false initialShellState false 7 (WStatus.exited 0)
        ≠ ExecOutcome.shellExit n m :=
  C7_fork_fatal_exec_child_only initialShellState false 7 (WStatus.exited 0)
    (fun _ _ => none) none none ["badcmd"] rfl

/-- No shell event ever shrinks the background table: `bgCount` is
written only by the `bgCount++` of line 129. -/
theorem shellStep_bg_monotone (st0 : ShellState) (e : ShellEvent) :
    st0.bgProcesses.length ≤ (shellStep st0 e).bgProcesses.length := by
  cases e with
  | sigtstp => simp only [shellStep, handle_SIGTSTP]; split <;> simp
  | reap => simp [shellStep, tableAfterReap]
  | spawn bg pid ws => simp only [shellStep, parentAfterSpawn]; split <;> simp
  | cd args vd home cwd => simp [shellStep, cdBuiltin_state_eq]
  | statusCmd => simp [shellStep]

/-- Over any whole session the background count never decreases. -/
theorem foldl_shellStep_bg_monotone (evs : List ShellEvent) :
    ∀ st : ShellState,
      st.bgProcesses.length ≤ (List.foldl shellStep st evs).bgProcesses.length := by
  induction evs with
  | nil => intro st; simp
  | cons e rest ih =>
    intro st
    rw [List.foldl_cons]
    exact le_trans (shellStep_bg_monotone st e) (ih (shellStep st e))

/-- C9: the table's capacity is the fixed 50 of `pid_t bgProcesses[50]`;
no event decrements the count, neither in one step nor over a whole
session; tracking a background job writes cell `bgCount` and grows the
count by one; the write is in bounds exactly when the session has
tracked fewer than 50 jobs so far; and at 50 tracked the next append
writes index 50 — out of the array's bounds. -/
theorem C9_bg_table_overflow (st : ShellState) (evs : List ShellEvent)
    (bg : Bool) (pid : Pid) (ws : WStatus) (h : st.foregroundOnly = false) :
    BG_CAPACITY = 50 ∧
    (∀ (st0 : ShellState) (e : ShellEvent),
      st0.bgProcesses.length ≤ (shellStep st0 e).bgProcesses.length) ∧
    st.bgProcesses.length ≤ (List.foldl shellStep st evs).bgProcesses.length ∧
    (bg = true →
      trackWriteIndex st = st.bgProcesses.length ∧
      (parentAfterSpawn st bg pid ws).1.bgProcesses.length
        = st.bgProcesses.length + 1) ∧
    (trackInBounds st ↔ st.bgProcesses.length < 50) ∧
    (st.bgProcesses.length = 50 → ¬ trackInBounds st) := by
  refine ⟨rfl, shellStep_bg_monotone, foldl_shellStep_bg_monotone evs st, ?_, Iff.rfl, ?_⟩
  · rintro rfl
    refine ⟨rfl, ?_⟩
    simp [parentAfterSpawn, h]
  · intro h50
    unfold trackInBounds trackWriteIndex BG_CAPACITY
    omega

/-- C9 witness: a state with 50 tracked jobs — the next append is out
of bounds. -/
theorem C9_bg_table_overflow_witness :
    BG_CAPACITY = 50 ∧ ¬ trackInBounds ⟨false, 0, List.replicate 50 3⟩ :=
  ⟨(C9_bg_table_overflow ⟨false, 0, List.replicate 50 3⟩ [] false 3
      (WStatus.exited 0) rfl).1,
    (C9_bg_table_overflow ⟨false, 0, List.replicate 50 3⟩ [] false 3
      (WStatus.exited 0) rfl).2.2.2.2.2 rfl⟩

/-- C8 witness: `cd /nonexistent` reports and leaves the directory. -/
theorem C8_amended_witness :
    (cdBuiltin ⟨false, 0, []⟩ ["cd", "/nonexistent"] (fun _ => false) none "/w").2.2
      = some "cd failed" ∧
    (cdBuiltin ⟨false, 0, []⟩ ["cd", "/nonexistent"] (fun _ => false) none "/w").2.1
      = "/w" :=
  (C8_amended ⟨false, 0, []⟩ ["cd", "/nonexistent"] (fun _ => false) none "/w" []).2.1
    (by decide) rfl

end Smallsh
